import Mathlib

/-!
Verification of the ExifAnalyzer core against its specification.

This file gives a shallow embedding, in Lean 4, of the parts of the
ExifAnalyzer repository that the checked claims are about:

* the metadata model (src/exif_analyzer/core/metadata.py):
  MetadataBlock and ImageMetadata with their GPS-pattern scans and
  strip operations, to_dict and from_dict;
* the file safety manager (src/exif_analyzer/core/file_safety.py):
  create_backup, get_backup_path and the safe_file_operation scope,
  over an explicit association-list filesystem model;
* the JPEG and PNG adapters (src/exif_analyzer/adapters/...):
  the guarded write and strip control flow, the raw PNG chunk pass with
  its byte literals exactly as they appear in the source, and the
  keyword handling of text chunks;
* the engine (src/exif_analyzer/core/engine.py): adapter registry,
  get_adapter dispatch and strip_metadata orchestration;
* the adapter constructor chain (adapters call the base constructor
  with an argument although the base class defines none), modelled with
  the documented CPython semantics of the root-object constructor.

Python values are modelled by PyVal, Python exceptions by PyExc, dicts
by association lists (Python dict keys are unique; theorems that need
uniqueness carry a Nodup hypothesis), file contents by a type parameter
of the filesystem model, and machine reads of bytes by lists of Nat.
-/

/-- Model of the Python values stored in metadata dictionaries:
None, strings, integers and booleans. -/
inductive PyVal where
  | none : PyVal
  | str (s : String) : PyVal
  | int (n : Int) : PyVal
  | bool (b : Bool) : PyVal
deriving DecidableEq, Repr

/-- Python truthiness of a PyVal, as used by conditions such as
checking a metadata value before use. -/
def PyVal.isTruthy : PyVal → Bool
  | PyVal.none => false
  | PyVal.str s => !(decide (s = ""))
  | PyVal.int n => !(decide (n = 0))
  | PyVal.bool b => b

/-- Model of the exception taxonomy of core/exceptions.py, plus the
built-in Python exceptions the claims mention. Each carries its
message, mirroring the single-argument constructor calls in the code. -/
inductive PyExc where
  | metadataError (msg : String) : PyExc
  | unsupportedFormatError (msg : String) : PyExc
  | fileError (msg : String) : PyExc
  | fileNotFoundError (msg : String) : PyExc
  | backupError (msg : String) : PyExc
  | pixelDataCorruptionError (msg : String) : PyExc
  | validationError (msg : String) : PyExc
  | typeError (msg : String) : PyExc
deriving DecidableEq, Repr

/-- The message of an exception; models str(e) for these
single-argument exception values. -/
def PyExc.message : PyExc → String
  | PyExc.metadataError m => m
  | PyExc.unsupportedFormatError m => m
  | PyExc.fileError m => m
  | PyExc.fileNotFoundError m => m
  | PyExc.backupError m => m
  | PyExc.pixelDataCorruptionError m => m
  | PyExc.validationError m => m
  | PyExc.typeError m => m

/-- Whether an exception is the backup-specific error kind. -/
def PyExc.isBackupError : PyExc → Bool
  | PyExc.backupError _ => true
  | _ => false

/-- Whether an exception is the dedicated pixel-corruption error kind. -/
def PyExc.isPixelCorruption : PyExc → Bool
  | PyExc.pixelDataCorruptionError _ => true
  | _ => false

/-! ## Association lists: the model of Python dicts and of directories

Python dict keys are unique, so lookup of the first matching entry and
removal of all matching entries coincide with dict semantics. -/

/-- First value stored under a key, as dict.get(key) of Python. -/
def alistFind {κ α : Type} [DecidableEq κ] (l : List (κ × α)) (k : κ) : Option α :=
  (l.find? (fun kv => decide (kv.1 = k))).map (fun kv => kv.2)

/-- Removal of a key, as dict.pop of Python on a dict (unique keys). -/
def alistErase {κ α : Type} [DecidableEq κ] (l : List (κ × α)) (k : κ) : List (κ × α) :=
  l.filter (fun kv => !(decide (kv.1 = k)))

/-- Store a value under a key, as dict item assignment of Python. -/
def alistInsert {κ α : Type} [DecidableEq κ] (l : List (κ × α)) (k : κ) (a : α) :
    List (κ × α) :=
  (k, a) :: alistErase l k

theorem alistFind_cons {κ α : Type} [DecidableEq κ]
    (kv : κ × α) (rest : List (κ × α)) (q : κ) :
    alistFind (kv :: rest) q = if kv.1 = q then some kv.2 else alistFind rest q := by
  by_cases hq : kv.1 = q <;> simp [alistFind, List.find?, hq]

theorem alistErase_cons {κ α : Type} [DecidableEq κ]
    (kv : κ × α) (rest : List (κ × α)) (k : κ) :
    alistErase (kv :: rest) k =
      if kv.1 = k then alistErase rest k else kv :: alistErase rest k := by
  by_cases hk : kv.1 = k <;> simp [alistErase, List.filter_cons, hk]

theorem alistFind_insert_self {κ α : Type} [DecidableEq κ]
    (l : List (κ × α)) (k : κ) (a : α) : alistFind (alistInsert l k a) k = some a := by
  simp [alistInsert, alistFind_cons]

theorem alistFind_erase_self {κ α : Type} [DecidableEq κ]
    (l : List (κ × α)) (k : κ) : alistFind (alistErase l k) k = none := by
  induction l with
  | nil => rfl
  | cons kv rest ih =>
    rw [alistErase_cons]
    by_cases h : kv.1 = k
    · simpa [h] using ih
    · rw [if_neg h, alistFind_cons, if_neg h]
      exact ih

theorem alistFind_erase_ne {κ α : Type} [DecidableEq κ]
    (l : List (κ × α)) (k q : κ) (h : q ≠ k) :
    alistFind (alistErase l k) q = alistFind l q := by
  induction l with
  | nil => rfl
  | cons kv rest ih =>
    rw [alistErase_cons, alistFind_cons]
    by_cases hk : kv.1 = k
    · have hq : ¬ kv.1 = q := fun hkq => h (hkq ▸ hk)
      rw [if_pos hk, if_neg hq]
      exact ih
    · rw [if_neg hk, alistFind_cons]
      by_cases hq : kv.1 = q
      · rw [if_pos hq, if_pos hq]
      · rw [if_neg hq, if_neg hq]
        exact ih

theorem alistFind_insert_ne {κ α : Type} [DecidableEq κ]
    (l : List (κ × α)) (k q : κ) (a : α) (h : q ≠ k) :
    alistFind (alistInsert l k a) q = alistFind l q := by
  rw [alistInsert, alistFind_cons, if_neg (fun hq => h hq.symm)]
  exact alistFind_erase_ne l k q h

/-! ## Metadata model (core/metadata.py) -/

/-- A metadata dictionary: string keys to PyVal values. -/
abbrev Dict := List (String × PyVal)

/-- MetadataBlock of core/metadata.py: a named mapping from string
key to value. -/
structure MetadataBlock where
  name : String
  data : Dict
deriving DecidableEq, Repr

/-- MetadataBlock.get with its None default. -/
def MetadataBlock.get (b : MetadataBlock) (k : String) : PyVal :=
  (alistFind b.data k).getD PyVal.none

/-- MetadataBlock.set. -/
def MetadataBlock.setKey (b : MetadataBlock) (k : String) (v : PyVal) : MetadataBlock :=
  { b with data := alistInsert b.data k v }

/-- MetadataBlock.remove: self.data.pop(key, None) is not None.
Returns the updated block and the boolean result. The popped value is
compared against None, so a key stored with value None yields false. -/
def MetadataBlock.removeKey (b : MetadataBlock) (k : String) : MetadataBlock × Bool :=
  ({ b with data := alistErase b.data k },
   !(decide ((alistFind b.data k).getD PyVal.none = PyVal.none)))

/-- MetadataBlock.keys. -/
def MetadataBlock.keys (b : MetadataBlock) : List String :=
  b.data.map (fun kv => kv.1)

/-- MetadataBlock.is_empty. -/
def MetadataBlock.is_empty (b : MetadataBlock) : Bool :=
  decide (b.data.length = 0)

/-- Whether the pattern matches at the head of the list. -/
def matchesAt {α : Type} [DecidableEq α] : List α → List α → Bool
  | _, [] => true
  | [], _ :: _ => false
  | c :: cs, p :: ps => decide (c = p) && matchesAt cs ps

/-- Substring test used to model the Python expression pat in s:
true iff pat occurs contiguously in s (the empty pattern occurs
everywhere). -/
def bytesHasSub {α : Type} [DecidableEq α] : List α → List α → Bool
  | [], pat => matchesAt ([] : List α) pat
  | c :: cs, pat => matchesAt (c :: cs) pat || bytesHasSub cs pat

/-- Key lowercasing, as key.lower() on the ASCII keys of the code. -/
def lowerChars (s : String) : List Char :=
  s.data.map Char.toLower

/-- Whether a pattern string occurs in the lowercased key, the Python
test pattern in key.lower(). The pattern lists of the code are already
lowercase. -/
def patInKey (key : String) (pat : String) : Bool :=
  bytesHasSub (lowerChars key) pat.data

/-- Whether any pattern of the list occurs in the lowercased key. -/
def matchesAnyPat (key : String) (pats : List String) : Bool :=
  pats.any (fun pat => patInKey key pat)

/-- The pattern list of ImageMetadata.strip_gps_data and of
get_privacy_sensitive_keys (metadata.py line 136 and 109). -/
def gps_strip_patterns : List String :=
  ["gps", "location", "geotag", "coordinate"]

/-- The wider pattern list of ImageMetadata.has_gps_data
(metadata.py lines 87-90). -/
def has_gps_patterns : List String :=
  ["gps", "latitude", "longitude", "altitude", "location",
   "geotag", "coordinate", "position"]

/-- ImageMetadata of core/metadata.py. file_path is a character list
(the Path), last_modified an optional ISO-8601 text (the datetime is
only ever serialised through isoformat and fromisoformat, modelled as
the identity on that text). -/
structure ImageMetadata where
  file_path : List Char
  format : String
  exif : MetadataBlock
  iptc : MetadataBlock
  xmp : MetadataBlock
  custom : MetadataBlock
  file_size : Option Int
  last_modified : Option String
  pixel_hash : Option String
deriving DecidableEq, Repr

/-- ImageMetadata.has_metadata: any of the four blocks non-empty. -/
def ImageMetadata.has_metadata (m : ImageMetadata) : Bool :=
  [m.exif, m.iptc, m.xmp, m.custom].any (fun b => !(b.is_empty))

/-- ImageMetadata.has_gps_data: substring scan of every key of the
four blocks against the wider pattern list. -/
def ImageMetadata.has_gps_data (m : ImageMetadata) : Bool :=
  [m.exif, m.iptc, m.xmp, m.custom].any
    (fun b => b.keys.any (fun k => matchesAnyPat k has_gps_patterns))

/-- One block pass of ImageMetadata.strip_gps_data: collect the keys
whose lowercase form contains a strip pattern, then remove each one,
counting only the removals for which MetadataBlock.remove returned
true. -/
def stripGpsBlock (b : MetadataBlock) : MetadataBlock × Nat :=
  let keysToRemove := b.keys.filter (fun k => matchesAnyPat k gps_strip_patterns)
  keysToRemove.foldl
    (fun acc k =>
      let r := acc.1.removeKey k
      (r.1, if r.2 then acc.2 + 1 else acc.2))
    (b, 0)

/-- ImageMetadata.strip_gps_data: the block pass over exif, iptc, xmp,
custom in order; returns the updated metadata and the count. -/
def ImageMetadata.strip_gps_data (m : ImageMetadata) : ImageMetadata × Nat :=
  ({ m with
      exif := (stripGpsBlock m.exif).1
      iptc := (stripGpsBlock m.iptc).1
      xmp := (stripGpsBlock m.xmp).1
      custom := (stripGpsBlock m.custom).1 },
   (stripGpsBlock m.exif).2 + (stripGpsBlock m.iptc).2 +
   (stripGpsBlock m.xmp).2 + (stripGpsBlock m.custom).2)

/-- The dictionary shape produced by ImageMetadata.to_dict and read
back by from_dict: file-level attributes plus the four block
dictionaries under the metadata key. -/
structure MetaDictShape where
  file_path : String
  format : String
  file_size : Option Int
  last_modified : Option String
  pixel_hash : Option String
  md_exif : Dict
  md_iptc : Dict
  md_xmp : Dict
  md_custom : Dict
deriving DecidableEq, Repr

/-- ImageMetadata.to_dict. -/
def ImageMetadata.to_dict (m : ImageMetadata) : MetaDictShape :=
  { file_path := String.mk m.file_path
    format := m.format
    file_size := m.file_size
    last_modified := m.last_modified
    pixel_hash := m.pixel_hash
    md_exif := m.exif.data
    md_iptc := m.iptc.data
    md_xmp := m.xmp.data
    md_custom := m.custom.data }

/-- ImageMetadata.from_dict: constructs the object (whose
post-initialisation hook raises ValidationError on an empty format),
then loads the four block dictionaries; the last_modified text is
parsed only when truthy. -/
def ImageMetadata.from_dict (d : MetaDictShape) : Except PyExc ImageMetadata :=
  if d.format = "" then
    Except.error (PyExc.validationError "Image format must be specified")
  else
    Except.ok
      { file_path := d.file_path.data
        format := d.format
        file_size := d.file_size
        last_modified :=
          match d.last_modified with
          | some s => if s = "" then none else some s
          | none => none
        pixel_hash := d.pixel_hash
        exif := { name := "exif", data := d.md_exif }
        iptc := { name := "iptc", data := d.md_iptc }
        xmp := { name := "xmp", data := d.md_xmp }
        custom := { name := "custom", data := d.md_custom } }

/-! ## Claim C9: MetadataBlock.remove -/

/-- C9. The claim states that remove returns true iff the key was
present regardless of the stored value, including None. The code
compares the popped value against None, so a key stored with value
None is removed yet reported false. This block witnesses that at a
concrete input: the key is present (with value None) and remove
returns false. -/
def blkWithNoneValue : MetadataBlock :=
  { name := "exif", data := [("GPSProcessingMethod", PyVal.none)] }

/-- C9 counterexample: the key GPSProcessingMethod is present in the
block, yet MetadataBlock.remove returns false because its stored value
is None; the claim as stated requires true for every present key. -/
theorem C9_remove_counterexample :
    alistFind blkWithNoneValue.data "GPSProcessingMethod" = some PyVal.none ∧
    (blkWithNoneValue.removeKey "GPSProcessingMethod").2 = false := by
  constructor <;> rfl

/-- C9 amended: remove returns true iff the key was present with a
value other than None, and after the call the key is absent from the
block. -/
theorem C9_remove_amended (b : MetadataBlock) (k : String) :
    ((b.removeKey k).2 = true ↔
      ∃ v, alistFind b.data k = some v ∧ v ≠ PyVal.none) ∧
    alistFind (b.removeKey k).1.data k = none := by
  constructor
  · cases h : alistFind b.data k with
    | none => simp [MetadataBlock.removeKey, h]
    | some v =>
      cases v <;> simp [MetadataBlock.removeKey, h]
  · exact alistFind_erase_self b.data k

/-! ## Claim C4: GPS stripping -/

/-- The count the code actually produces for one block: keys whose
lowercase form contains a strip pattern and whose stored value is not
None (remove reports false on a None value, and the code counts only
reported removals). -/
def gpsRemovableCount (d : Dict) : Nat :=
  (d.filter (fun kv =>
    matchesAnyPat kv.1 gps_strip_patterns && !(decide (kv.2 = PyVal.none)))).length

/-- One step of the removal fold of strip_gps_data. -/
def stripFoldStep (acc : MetadataBlock × Nat) (k : String) : MetadataBlock × Nat :=
  let r := acc.1.removeKey k
  (r.1, if r.2 then acc.2 + 1 else acc.2)

theorem stripGpsBlock_eq_fold (b : MetadataBlock) :
    stripGpsBlock b =
      ((b.keys.filter (fun k => matchesAnyPat k gps_strip_patterns)).foldl
        stripFoldStep (b, 0)) := rfl

theorem stripFold_data (ks : List String) :
    ∀ (b : MetadataBlock) (n : Nat),
    ((ks.foldl stripFoldStep (b, n)).1).data =
      b.data.filter (fun kv => !(decide (kv.1 ∈ ks))) := by
  induction ks with
  | nil =>
    intro b n
    simp
  | cons k ks ih =>
    intro b n
    rw [List.foldl_cons]
    have step1 :
        (stripFoldStep (b, n) k).1.data = alistErase b.data k := rfl
    rw [show (ks.foldl stripFoldStep (stripFoldStep (b, n) k)) =
          (ks.foldl stripFoldStep
            ((stripFoldStep (b, n) k).1, (stripFoldStep (b, n) k).2)) from rfl]
    rw [ih ((stripFoldStep (b, n) k).1) ((stripFoldStep (b, n) k).2), step1]
    rw [alistErase, List.filter_filter]
    apply List.filter_congr
    intro kv _
    by_cases h1 : kv.1 = k <;> by_cases h2 : kv.1 ∈ ks <;>
      simp [h1, h2, List.mem_cons]

theorem countIn_erase (d : Dict) (k : String) (ks : List String) (hk : k ∉ ks) :
    ((alistErase d k).filter (fun kv =>
      decide (kv.1 ∈ ks) && !(decide (kv.2 = PyVal.none)))).length =
    (d.filter (fun kv =>
      decide (kv.1 ∈ ks) && !(decide (kv.2 = PyVal.none)))).length := by
  rw [alistErase, List.filter_filter]
  congr 1
  apply List.filter_congr
  intro kv _
  by_cases h1 : kv.1 ∈ ks
  · have : ¬ kv.1 = k := fun he => hk (he ▸ h1)
    simp [h1, this]
  · simp [h1]

theorem count_single_key (d : Dict) (k : String)
    (hnd : (d.map Prod.fst).Nodup) :
    (d.filter (fun kv =>
      decide (kv.1 = k) && !(decide (kv.2 = PyVal.none)))).length =
    (if !(decide ((alistFind d k).getD PyVal.none = PyVal.none)) then 1 else 0) := by
  induction d with
  | nil => rfl
  | cons kv rest ih =>
    simp only [List.map_cons, List.nodup_cons] at hnd
    rw [alistFind_cons, List.filter_cons]
    by_cases h1 : kv.1 = k
    · have hrest : ∀ e ∈ rest, ¬ (decide (e.1 = k) && !(decide (e.2 = PyVal.none))) = true := by
        intro e he
        have : e.1 ≠ k := by
          intro hek
          exact hnd.1 (by rw [h1, ← hek]; exact List.mem_map_of_mem Prod.fst he)
        simp [this]
      rw [if_pos h1, List.filter_eq_nil_iff.mpr hrest]
      by_cases h2 : kv.2 = PyVal.none <;> simp [h1, h2]
    · rw [if_neg h1]
      have := ih hnd.2
      simp only [h1, decide_False, Bool.false_and, if_false]
      exact this

theorem decideOrEq (p q : Prop) [Decidable p] [Decidable q] :
    decide (p ∨ q) = (decide p || decide q) := by
  by_cases hp : p <;> by_cases hq : q <;> simp [hp, hq]

theorem count_cons_split (d : Dict) (k : String) (ks : List String) (hk : k ∉ ks) :
    (d.filter (fun kv =>
      decide (kv.1 ∈ k :: ks) && !(decide (kv.2 = PyVal.none)))).length =
    (d.filter (fun kv =>
      decide (kv.1 = k) && !(decide (kv.2 = PyVal.none)))).length +
    (d.filter (fun kv =>
      decide (kv.1 ∈ ks) && !(decide (kv.2 = PyVal.none)))).length := by
  induction d with
  | nil => rfl
  | cons kv rest ih =>
    by_cases h1 : kv.1 = k
    · have h2 : kv.1 ∉ ks := fun hm => hk (h1 ▸ hm)
      by_cases h3 : kv.2 = PyVal.none <;>
      · simp only [List.mem_cons, decideOrEq] at ih ⊢
        simp only [List.filter_cons]
        simp [h1, h2, h3, hk, ih]
        try omega
    · by_cases h2 : kv.1 ∈ ks <;> by_cases h3 : kv.2 = PyVal.none <;>
      · simp only [List.mem_cons, decideOrEq] at ih ⊢
        simp only [List.filter_cons]
        simp [h1, h2, h3, hk, ih]
        try omega

theorem alistErase_keys_nodup (d : Dict) (k : String)
    (hd : (d.map Prod.fst).Nodup) : ((alistErase d k).map Prod.fst).Nodup :=
  hd.sublist ((List.filter_sublist d).map Prod.fst)

theorem stripFold_count (ks : List String) :
    ∀ (b : MetadataBlock) (n : Nat),
    (b.data.map Prod.fst).Nodup → ks.Nodup →
    (ks.foldl stripFoldStep (b, n)).2 =
      n + (b.data.filter (fun kv =>
        decide (kv.1 ∈ ks) && !(decide (kv.2 = PyVal.none)))).length := by
  induction ks with
  | nil =>
    intro b n _ _
    simp
  | cons k ks ih =>
    intro b n hd hks
    rw [List.foldl_cons]
    rw [show (ks.foldl stripFoldStep (stripFoldStep (b, n) k)) =
          (ks.foldl stripFoldStep
            ((stripFoldStep (b, n) k).1, (stripFoldStep (b, n) k).2)) from rfl]
    have hd1 : ((stripFoldStep (b, n) k).1.data.map Prod.fst).Nodup :=
      alistErase_keys_nodup b.data k hd
    have hks1 := List.nodup_cons.mp hks
    rw [ih ((stripFoldStep (b, n) k).1) ((stripFoldStep (b, n) k).2) hd1 hks1.2]
    have hstep : (stripFoldStep (b, n) k).1.data = alistErase b.data k := rfl
    rw [hstep, countIn_erase b.data k ks hks1.1,
        count_cons_split b.data k ks hks1.1,
        count_single_key b.data k hd]
    have hflag : (stripFoldStep (b, n) k).2 =
        if !(decide ((alistFind b.data k).getD PyVal.none = PyVal.none)) then n + 1
        else n := rfl
    rw [hflag]
    by_cases hf : (alistFind b.data k).getD PyVal.none = PyVal.none <;>
      · simp [hf]
        try omega

theorem stripGpsBlock_data (b : MetadataBlock) :
    (stripGpsBlock b).1.data =
      b.data.filter (fun kv => !(matchesAnyPat kv.1 gps_strip_patterns)) := by
  rw [stripGpsBlock_eq_fold, stripFold_data]
  apply List.filter_congr
  intro kv hm
  by_cases hp : matchesAnyPat kv.1 gps_strip_patterns
  · have hmem : kv.1 ∈ b.keys.filter (fun k => matchesAnyPat k gps_strip_patterns) :=
      List.mem_filter.mpr ⟨List.mem_map_of_mem (fun kv => kv.1) hm, hp⟩
    simp [hmem, hp]
  · have hmem : kv.1 ∉ b.keys.filter (fun k => matchesAnyPat k gps_strip_patterns) :=
      fun hmem => hp ((List.mem_filter.mp hmem).2)
    simp [hmem, hp]

theorem stripGpsBlock_count (b : MetadataBlock) (hd : b.keys.Nodup) :
    (stripGpsBlock b).2 = gpsRemovableCount b.data := by
  have hd2 : (b.data.map Prod.fst).Nodup := hd
  have hks : (b.keys.filter (fun k => matchesAnyPat k gps_strip_patterns)).Nodup :=
    hd.filter _
  rw [stripGpsBlock_eq_fold, stripFold_count _ b 0 hd2 hks, Nat.zero_add,
      gpsRemovableCount]
  congr 1
  apply List.filter_congr
  intro kv hm
  by_cases hp : matchesAnyPat kv.1 gps_strip_patterns
  · have hmem : kv.1 ∈ b.keys.filter (fun k => matchesAnyPat k gps_strip_patterns) :=
      List.mem_filter.mpr ⟨List.mem_map_of_mem (fun kv => kv.1) hm, hp⟩
    simp [hmem, hp]
  · have hmem : kv.1 ∉ b.keys.filter (fun k => matchesAnyPat k gps_strip_patterns) :=
      fun hmem => hp ((List.mem_filter.mp hmem).2)
    simp [hmem, hp]

theorem keys_any (b : MetadataBlock) (g : String → Bool) :
    b.keys.any g = b.data.any (fun kv => g kv.1) := by
  show (b.data.map (fun kv => kv.1)).any g = _
  induction b.data with
  | nil => rfl
  | cons kv rest ih => simp [ih]

theorem any_filter_keys (d : Dict) (p : String × PyVal → Bool) (g : String → Bool) :
    ((d.filter p).map (fun kv => kv.1)).any g = d.any (fun kv => p kv && g kv.1) := by
  induction d with
  | nil => rfl
  | cons kv rest ih =>
    rw [List.filter_cons]
    by_cases hp : p kv <;> simp [hp, ih]

theorem blockStripAny (b : MetadataBlock) (g : String → Bool) :
    (stripGpsBlock b).1.keys.any g =
      b.data.any (fun kv =>
        !(matchesAnyPat kv.1 gps_strip_patterns) && g kv.1) := by
  show ((stripGpsBlock b).1.data.map (fun kv => kv.1)).any g = _
  rw [stripGpsBlock_data, any_filter_keys]

/-- C4 counterexample input: an EXIF block holding a key Latitude
(matched by has_gps_data but by none of the four strip patterns) and a
key GPSTag stored with value None (matched by the strip patterns but
not counted, because remove reports false on a None value). -/
def mLat : ImageMetadata :=
  { file_path := "img.jpg".data
    format := "JPEG"
    exif := { name := "exif",
              data := [("Latitude", PyVal.str "40.7128"), ("GPSTag", PyVal.none)] }
    iptc := { name := "iptc", data := [] }
    xmp := { name := "xmp", data := [] }
    custom := { name := "custom", data := [] }
    file_size := none
    last_modified := none
    pixel_hash := none }

/-- C4 counterexample: after strip_gps_data, has_gps_data still
returns true (the key Latitude matches the wider has_gps_data pattern
list but none of the strip patterns), and the returned count is 0
although one key (GPSTag) matched a strip pattern before the call. -/
theorem C4_strip_gps_counterexample :
    (mLat.strip_gps_data).1.has_gps_data = true ∧
    (mLat.strip_gps_data).2 = 0 ∧
    (mLat.exif.data.filter
      (fun kv => matchesAnyPat kv.1 gps_strip_patterns)).length = 1 := by
  refine ⟨?_, ?_, ?_⟩ <;> rfl

/-- C4 amended: with unique keys per block (dict semantics), after
strip_gps_data (a) every key whose lowercase form contains one of the
four strip patterns is removed from every block, (b) the returned
count equals the number of keys, across all blocks, whose lowercase
form contained a strip pattern and whose stored value was not None,
and (c) has_gps_data afterwards returns true exactly when some key
matching the wider has_gps_data pattern list matched none of the strip
patterns, so it can remain true. -/
theorem C4_strip_gps_amended (m : ImageMetadata)
    (h1 : m.exif.keys.Nodup) (h2 : m.iptc.keys.Nodup)
    (h3 : m.xmp.keys.Nodup) (h4 : m.custom.keys.Nodup) :
    (m.strip_gps_data).2 =
        gpsRemovableCount m.exif.data + gpsRemovableCount m.iptc.data +
        gpsRemovableCount m.xmp.data + gpsRemovableCount m.custom.data ∧
    (m.strip_gps_data).1.exif.data =
        m.exif.data.filter (fun kv => !(matchesAnyPat kv.1 gps_strip_patterns)) ∧
    (m.strip_gps_data).1.iptc.data =
        m.iptc.data.filter (fun kv => !(matchesAnyPat kv.1 gps_strip_patterns)) ∧
    (m.strip_gps_data).1.xmp.data =
        m.xmp.data.filter (fun kv => !(matchesAnyPat kv.1 gps_strip_patterns)) ∧
    (m.strip_gps_data).1.custom.data =
        m.custom.data.filter (fun kv => !(matchesAnyPat kv.1 gps_strip_patterns)) ∧
    (m.strip_gps_data).1.has_gps_data =
      (m.exif.keys ++ m.iptc.keys ++ m.xmp.keys ++ m.custom.keys).any
        (fun k => !(matchesAnyPat k gps_strip_patterns) &&
                  matchesAnyPat k has_gps_patterns) := by
  refine ⟨?_, ?_, ?_, ?_, ?_, ?_⟩
  · show (stripGpsBlock m.exif).2 + (stripGpsBlock m.iptc).2 +
        (stripGpsBlock m.xmp).2 + (stripGpsBlock m.custom).2 = _
    rw [stripGpsBlock_count m.exif h1, stripGpsBlock_count m.iptc h2,
        stripGpsBlock_count m.xmp h3, stripGpsBlock_count m.custom h4]
  · exact stripGpsBlock_data m.exif
  · exact stripGpsBlock_data m.iptc
  · exact stripGpsBlock_data m.xmp
  · exact stripGpsBlock_data m.custom
  · show ImageMetadata.has_gps_data _ = _
    simp only [ImageMetadata.has_gps_data, ImageMetadata.strip_gps_data,
      List.any_cons, List.any_nil, Bool.or_false, List.any_append]
    rw [blockStripAny m.exif, blockStripAny m.iptc, blockStripAny m.xmp,
        blockStripAny m.custom]
    rw [keys_any m.exif, keys_any m.iptc, keys_any m.xmp, keys_any m.custom]
    simp [Bool.or_assoc]

/-- C4 witness: the amended theorem applied to the concrete metadata
object mLat, with the uniqueness hypotheses discharged by computation. -/
theorem C4_strip_gps_amended_witness :
    mLat.exif.keys.Nodup ∧ mLat.iptc.keys.Nodup ∧
    mLat.xmp.keys.Nodup ∧ mLat.custom.keys.Nodup ∧
    ((mLat.strip_gps_data).2 =
        gpsRemovableCount mLat.exif.data + gpsRemovableCount mLat.iptc.data +
        gpsRemovableCount mLat.xmp.data + gpsRemovableCount mLat.custom.data ∧
     (mLat.strip_gps_data).1.exif.data =
        mLat.exif.data.filter (fun kv => !(matchesAnyPat kv.1 gps_strip_patterns)) ∧
     (mLat.strip_gps_data).1.iptc.data =
        mLat.iptc.data.filter (fun kv => !(matchesAnyPat kv.1 gps_strip_patterns)) ∧
     (mLat.strip_gps_data).1.xmp.data =
        mLat.xmp.data.filter (fun kv => !(matchesAnyPat kv.1 gps_strip_patterns)) ∧
     (mLat.strip_gps_data).1.custom.data =
        mLat.custom.data.filter (fun kv => !(matchesAnyPat kv.1 gps_strip_patterns)) ∧
     (mLat.strip_gps_data).1.has_gps_data =
       (mLat.exif.keys ++ mLat.iptc.keys ++ mLat.xmp.keys ++ mLat.custom.keys).any
         (fun k => !(matchesAnyPat k gps_strip_patterns) &&
                   matchesAnyPat k has_gps_patterns)) :=
  ⟨by decide, by decide, by decide, by decide,
   C4_strip_gps_amended mLat (by decide) (by decide) (by decide) (by decide)⟩

/-! ## Claim C8: to_dict / from_dict round trip -/

/-- C8. from_dict of to_dict reproduces the four block dictionaries
exactly; the only run-condition is the constructor validation that the
format string is non-empty, which holds for every ImageMetadata the
code builds. -/
theorem C8_roundtrip (m : ImageMetadata) (h : m.format ≠ "") :
    ∃ m2, ImageMetadata.from_dict (m.to_dict) = Except.ok m2 ∧
      m2.exif.data = m.exif.data ∧
      m2.iptc.data = m.iptc.data ∧
      m2.xmp.data = m.xmp.data ∧
      m2.custom.data = m.custom.data := by
  have hni : ¬ (m.to_dict.format = "") := by
    simpa [ImageMetadata.to_dict] using h
  simp only [ImageMetadata.from_dict]
  rw [if_neg hni]
  exact ⟨_, rfl, rfl, rfl, rfl, rfl⟩

/-- C8 witness: the round trip evaluated at the concrete metadata
object mLat, whose format is the non-empty string JPEG. -/
theorem C8_roundtrip_witness :
    mLat.format ≠ "" ∧
    (∃ m2, ImageMetadata.from_dict (mLat.to_dict) = Except.ok m2 ∧
      m2.exif.data = mLat.exif.data ∧
      m2.iptc.data = mLat.iptc.data ∧
      m2.xmp.data = mLat.xmp.data ∧
      m2.custom.data = mLat.custom.data) :=
  ⟨by decide, C8_roundtrip mLat (by decide)⟩

/-! ## Path and filesystem model (core/file_safety.py) -/

/-- A filesystem path, as its character list. -/
abbrev PyPath := List Char

/-- Final component of a path (pathlib name): the characters after the
last slash. -/
def pathName (p : PyPath) : PyPath :=
  (p.reverse.takeWhile (fun c => !(decide (c = '/')))).reverse

/-- Leading part of a path up to and including the last slash; empty
when the path has no slash. Appending the name gives the path back. -/
def pathParentSlash (p : PyPath) : PyPath :=
  (p.reverse.dropWhile (fun c => !(decide (c = '/')))).reverse

theorem parentSlash_append_name (p : PyPath) :
    pathParentSlash p ++ pathName p = p := by
  rw [pathParentSlash, pathName, ← List.reverse_append,
      List.takeWhile_append_dropWhile, List.reverse_reverse]

/-- Split of a final component into stem and suffix. Follows the
pathlib rule of Path.suffix: the suffix is non-empty exactly when the
last dot lies strictly inside the name (neither first nor last
character). -/
def pathSplitExt (name : PyPath) : PyPath × PyPath :=
  let rev := name.reverse
  let after := rev.takeWhile (fun c => !(decide (c = '.')))
  let restRev := rev.dropWhile (fun c => !(decide (c = '.')))
  if 0 < after.length ∧ after.length + 1 < name.length then
    ((restRev.drop 1).reverse, restRev.take 1 ++ after.reverse)
  else
    (name, [])

theorem take_one_reverse {α : Type} (l : List α) : (l.take 1).reverse = l.take 1 := by
  cases l <;> simp

theorem splitExt_append (name : PyPath) :
    (pathSplitExt name).1 ++ (pathSplitExt name).2 = name := by
  simp only [pathSplitExt]
  by_cases hc : 0 < (name.reverse.takeWhile (fun c => !(decide (c = '.')))).length ∧
      (name.reverse.takeWhile (fun c => !(decide (c = '.')))).length + 1 < name.length
  · rw [if_pos hc]
    have hsplit : name.reverse.takeWhile (fun c => !(decide (c = '.'))) ++
        name.reverse.dropWhile (fun c => !(decide (c = '.'))) = name.reverse :=
      List.takeWhile_append_dropWhile (fun c => !(decide (c = '.'))) name.reverse
    have htd : (name.reverse.dropWhile (fun c => !(decide (c = '.')))).take 1 ++
        (name.reverse.dropWhile (fun c => !(decide (c = '.')))).drop 1 =
        name.reverse.dropWhile (fun c => !(decide (c = '.'))) :=
      List.take_append_drop 1 _
    calc ((name.reverse.dropWhile (fun c => !(decide (c = '.')))).drop 1).reverse ++
          ((name.reverse.dropWhile (fun c => !(decide (c = '.')))).take 1 ++
            (name.reverse.takeWhile (fun c => !(decide (c = '.')))).reverse)
        = ((name.reverse.dropWhile (fun c => !(decide (c = '.')))).drop 1).reverse ++
          (((name.reverse.dropWhile (fun c => !(decide (c = '.')))).take 1).reverse ++
            (name.reverse.takeWhile (fun c => !(decide (c = '.')))).reverse) := by
          rw [take_one_reverse]
      _ = (((name.reverse.takeWhile (fun c => !(decide (c = '.')))) ++
            ((name.reverse.dropWhile (fun c => !(decide (c = '.')))).take 1 ++
             (name.reverse.dropWhile (fun c => !(decide (c = '.')))).drop 1)).reverse) := by
          simp [List.reverse_append]
      _ = name := by rw [htd, hsplit, List.reverse_reverse]
  · rw [if_neg hc]
    simp

/-- Stem of the final component (pathlib Path.stem). -/
def pathStem (p : PyPath) : PyPath := (pathSplitExt (pathName p)).1

/-- Suffix of the final component, with its leading dot
(pathlib Path.suffix). -/
def pathSuffix (p : PyPath) : PyPath := (pathSplitExt (pathName p)).2

theorem stem_append_suffix (p : PyPath) :
    pathStem p ++ pathSuffix p = pathName p := splitExt_append (pathName p)

/-- Decimal digits of a timestamp, the f-string interpolation of
int(time.time()). -/
def natChars (t : Nat) : List Char := (Nat.repr t).data

/-- FileSafetyManager.get_backup_path with the default backup
directory (the parent of the original) and the default suffix backup:
parent / (stem + .backup. + timestamp + ext). -/
def get_backup_path (p : PyPath) (t : Nat) : PyPath :=
  pathParentSlash p ++ pathStem p ++ ".backup.".data ++ natChars t ++ pathSuffix p

/-- The private temp working file of safe_file_operation:
parent/.temp/temp_{timestamp}_{name}. -/
def temp_op_path (p : PyPath) (t : Nat) : PyPath :=
  pathParentSlash p ++ ".temp/temp_".data ++ natChars t ++ "_".data ++ pathName p

theorem length_backup_path (p : PyPath) (t : Nat) :
    (get_backup_path p t).length = p.length + 8 + (natChars t).length := by
  have h1 := congrArg List.length (stem_append_suffix p)
  have h2 := congrArg List.length (parentSlash_append_name p)
  simp only [List.length_append] at h1 h2
  simp only [get_backup_path, List.length_append]
  simp only [show (".backup.".data).length = 8 from rfl]
  omega

theorem length_temp_path (p : PyPath) (t : Nat) :
    (temp_op_path p t).length = p.length + 12 + (natChars t).length := by
  have h2 := congrArg List.length (parentSlash_append_name p)
  simp only [List.length_append] at h2
  simp only [temp_op_path, List.length_append]
  simp only [show (".temp/temp_".data).length = 11 from rfl,
             show ("_".data).length = 1 from rfl]
  omega

theorem ne_of_length_ne {α : Type} {x y : List α} (h : x.length ≠ y.length) :
    x ≠ y := fun he => h (he ▸ rfl)

theorem backup_ne_self (p : PyPath) (t : Nat) : get_backup_path p t ≠ p :=
  ne_of_length_ne (by rw [length_backup_path]; omega)

theorem temp_ne_self (p : PyPath) (t : Nat) : temp_op_path p t ≠ p :=
  ne_of_length_ne (by rw [length_temp_path]; omega)

theorem temp_ne_backup (p : PyPath) (t : Nat) :
    temp_op_path p t ≠ get_backup_path p t :=
  ne_of_length_ne (by rw [length_temp_path, length_backup_path]; omega)

/-- The filesystem: an association of paths to file contents of some
type. Directories are implicit; only files are tracked. -/
abbrev FS (α : Type) := List (PyPath × α)

/-- Content stored at a path, none when the file does not exist. -/
def FS.read {α : Type} (fs : FS α) (p : PyPath) : Option α := alistFind fs p

/-- Write (create or overwrite) a file. -/
def FS.write {α : Type} (fs : FS α) (p : PyPath) (a : α) : FS α := alistInsert fs p a

/-- Delete a file (unlink). -/
def FS.removeFile {α : Type} (fs : FS α) (p : PyPath) : FS α := alistErase fs p

theorem FS.read_write_self {α : Type} (fs : FS α) (p : PyPath) (a : α) :
    FS.read (FS.write fs p a) p = some a := alistFind_insert_self fs p a

theorem FS.read_write_ne {α : Type} (fs : FS α) (p q : PyPath) (a : α) (h : q ≠ p) :
    FS.read (FS.write fs p a) q = FS.read fs q := alistFind_insert_ne fs p q a h

theorem FS.read_remove_self {α : Type} (fs : FS α) (p : PyPath) :
    FS.read (FS.removeFile fs p) p = none := alistFind_erase_self fs p

theorem FS.read_remove_ne {α : Type} (fs : FS α) (p q : PyPath) (h : q ≠ p) :
    FS.read (FS.removeFile fs p) q = FS.read fs q := alistFind_erase_ne fs p q h

/-- FileSafetyManager.create_backup with the default backup directory.
A non-existent source raises FileError (not BackupError); a failure of
the copy step (modelled by copyErr carrying the message of the
underlying exception) raises BackupError; otherwise the source content
is copied to the backup path and that path is returned. -/
def create_backup {α : Type} (fs : FS α) (filePath : PyPath)
    (backupPath : Option PyPath) (t : Nat) (copyErr : Option String) :
    Except PyExc PyPath × FS α :=
  if (FS.read fs filePath).isNone then
    (Except.error (PyExc.fileError
      ("Cannot backup non-existent file: " ++ String.mk filePath)), fs)
  else
    let bp := backupPath.getD (get_backup_path filePath t)
    match copyErr with
    | some msg =>
      (Except.error (PyExc.backupError ("Failed to create backup: " ++ msg)), fs)
    | none =>
      match FS.read fs filePath with
      | some c => (Except.ok bp, FS.write fs bp c)
      | none => (Except.ok bp, fs)

/-- The content handed to the body of safe_file_operation: the temp
copy of the original when the original exists, otherwise whatever (if
anything) sits at the temp path. -/
def scope_temp_input {α : Type} (fs : FS α) (filePath : PyPath) (t : Nat)
    (createBackup : Bool) : Option α :=
  let fs1 := if createBackup && (FS.read fs filePath).isSome then
      (create_backup fs filePath none t none).2 else fs
  match FS.read fs1 filePath with
  | some c => FS.read (FS.write fs1 (temp_op_path filePath t) c) (temp_op_path filePath t)
  | none => FS.read fs1 (temp_op_path filePath t)

/-- FileSafetyManager.safe_file_operation. The steps of the context
manager in order: (1) backup of the target when requested and the
target exists, (2) copy of the target to the private temp file,
(3) the body runs against the temp file, (4) on success the temp file
is moved over the target, (5) on an exception the target is restored
from the backup when one was taken and both files exist, and the same
exception is re-raised, (6) on every exit the temp file is deleted.
The infrastructure copies themselves are modelled as succeeding (the
claim concerns a body that raises; rollback is best effort in the
code, with copy failures only logged). -/
def safe_file_operation {α : Type} (fs : FS α) (filePath : PyPath) (t : Nat)
    (createBackup : Bool) (body : Option α → Except PyExc (Option α)) :
    Except PyExc Unit × FS α :=
  let origExists := (FS.read fs filePath).isSome
  let fs1 := if createBackup && origExists then
      (create_backup fs filePath none t none).2 else fs
  let tempP := temp_op_path filePath t
  let fs2 := match FS.read fs1 filePath with
    | some c => FS.write fs1 tempP c
    | none => fs1
  match body (FS.read fs2 tempP) with
  | Except.ok newTemp =>
    let fs3 := match newTemp with
      | some c => FS.write fs2 tempP c
      | none => FS.removeFile fs2 tempP
    let fs4 := match FS.read fs3 tempP with
      | some c => FS.removeFile (FS.write fs3 filePath c) tempP
      | none => fs3
    (Except.ok (), FS.removeFile fs4 tempP)
  | Except.error e =>
    let fs3 :=
      if createBackup && origExists
          && (FS.read fs2 (get_backup_path filePath t)).isSome
          && (FS.read fs2 filePath).isSome then
        match FS.read fs2 (get_backup_path filePath t) with
        | some c => FS.write fs2 filePath c
        | none => fs2
      else fs2
    (Except.error e, FS.removeFile fs3 tempP)

/-- C1. If the body run inside safe_file_operation with
create_backup=True raises, then after the scope: the target holds
exactly its content from before the scope (absent stays absent), the
very exception of the body propagates, and the temp working file does
not exist. -/
theorem C1_safe_scope_rollback {α : Type} (fs : FS α) (p : PyPath) (t : Nat)
    (body : Option α → Except PyExc (Option α)) (e : PyExc)
    (h : body (scope_temp_input fs p t true) = Except.error e) :
    (safe_file_operation fs p t true body).1 = Except.error e ∧
    FS.read (safe_file_operation fs p t true body).2 p = FS.read fs p ∧
    FS.read (safe_file_operation fs p t true body).2 (temp_op_path p t) = none := by
  have hbp : get_backup_path p t ≠ p := backup_ne_self p t
  have htp : temp_op_path p t ≠ p := temp_ne_self p t
  have htb : temp_op_path p t ≠ get_backup_path p t := temp_ne_backup p t
  cases horig : FS.read fs p with
  | none =>
    have hinput : scope_temp_input fs p t true = FS.read fs (temp_op_path p t) := by
      simp [scope_temp_input, horig]
    rw [hinput] at h
    refine ⟨?_, ?_, ?_⟩ <;>
      simp [safe_file_operation, horig, h,
        FS.read_remove_ne fs (temp_op_path p t) p (Ne.symm htp), FS.read_remove_self]
  | some c =>
    have hfs1 : (create_backup fs p none t none).2 =
        FS.write fs (get_backup_path p t) c := by
      simp [create_backup, horig]
    have hr1 : FS.read (FS.write fs (get_backup_path p t) c) p = some c := by
      rw [FS.read_write_ne _ _ _ _ (fun hq => hbp hq.symm), horig]
    have hr2t : FS.read (FS.write (FS.write fs (get_backup_path p t) c)
        (temp_op_path p t) c) (temp_op_path p t) = some c :=
      FS.read_write_self _ _ _
    have hinput : scope_temp_input fs p t true = some c := by
      simp [scope_temp_input, horig, hfs1, hr1, hr2t]
    rw [hinput] at h
    have hr2bp : FS.read (FS.write (FS.write fs (get_backup_path p t) c)
        (temp_op_path p t) c) (get_backup_path p t) = some c := by
      rw [FS.read_write_ne _ _ _ _ (fun hq => htb hq.symm)]
      exact FS.read_write_self _ _ _
    have hr2p : FS.read (FS.write (FS.write fs (get_backup_path p t) c)
        (temp_op_path p t) c) p = some c := by
      rw [FS.read_write_ne _ _ _ _ (fun hq => htp hq.symm)]
      exact hr1
    have hr3p : FS.read (FS.removeFile (FS.write (FS.write (FS.write fs
        (get_backup_path p t) c) (temp_op_path p t) c) p c) (temp_op_path p t))
        p = some c := by
      rw [FS.read_remove_ne _ _ _ (Ne.symm htp)]
      exact FS.read_write_self _ _ _
    refine ⟨?_, ?_, ?_⟩ <;>
      simp [safe_file_operation, horig, hfs1, hr1, hr2t, h, hr2bp, hr2p, hr3p,
        FS.read_remove_self]
/-- C1 witness input: a filesystem holding one jpeg file. -/
def fsC1 : FS (List Nat) := [("photo.jpg".data, [1, 2, 3])]

/-- C1 witness body: raises unconditionally. -/
def bodyC1 : Option (List Nat) → Except PyExc (Option (List Nat)) :=
  fun _ => Except.error (PyExc.metadataError "boom")

/-- C1 witness: the rollback theorem applied to a concrete filesystem,
file and raising body, at timestamp 7. -/
theorem C1_safe_scope_rollback_witness :
    bodyC1 (scope_temp_input fsC1 "photo.jpg".data 7 true) =
      Except.error (PyExc.metadataError "boom") ∧
    ((safe_file_operation fsC1 "photo.jpg".data 7 true bodyC1).1 =
      Except.error (PyExc.metadataError "boom") ∧
     FS.read (safe_file_operation fsC1 "photo.jpg".data 7 true bodyC1).2
       "photo.jpg".data = FS.read fsC1 "photo.jpg".data ∧
     FS.read (safe_file_operation fsC1 "photo.jpg".data 7 true bodyC1).2
       (temp_op_path "photo.jpg".data 7) = none) :=
  ⟨rfl, C1_safe_scope_rollback fsC1 "photo.jpg".data 7 bodyC1
    (PyExc.metadataError "boom") rfl⟩

/-! ## Claim C10: create_backup -/

/-- C10 counterexample: on a non-existent source the code raises
FileError (file_safety.py line 68), not the backup-specific
BackupError the claim requires. -/
theorem C10_create_backup_counterexample :
    (create_backup ([] : FS (List Nat)) "a.jpg".data none 0 none).1 =
      Except.error (PyExc.fileError "Cannot backup non-existent file: a.jpg") ∧
    PyExc.isBackupError
      (PyExc.fileError "Cannot backup non-existent file: a.jpg") = false := by
  constructor
  · rfl
  · rfl

/-- C10 amended: create_backup raises FileError (a file-access error,
not BackupError) when the source does not exist; it raises BackupError
when the copy to the destination fails; and on success it returns the
backup path, at which a copy of the source content then exists. -/
theorem C10_create_backup_amended {α : Type} (fs : FS α) (p : PyPath) (t : Nat) :
    (FS.read fs p = none →
      ∀ copyErr, (create_backup fs p none t copyErr).1 =
        Except.error (PyExc.fileError
          ("Cannot backup non-existent file: " ++ String.mk p)) ∧
        (create_backup fs p none t copyErr).2 = fs) ∧
    (∀ c msg, FS.read fs p = some c →
      (create_backup fs p none t (some msg)).1 =
        Except.error (PyExc.backupError ("Failed to create backup: " ++ msg)) ∧
      (create_backup fs p none t (some msg)).2 = fs) ∧
    (∀ c, FS.read fs p = some c →
      (create_backup fs p none t none).1 = Except.ok (get_backup_path p t) ∧
      FS.read (create_backup fs p none t none).2 (get_backup_path p t) = some c ∧
      FS.read (create_backup fs p none t none).2 p = some c) := by
  refine ⟨?_, ?_, ?_⟩
  · intro hnone copyErr
    constructor <;> simp [create_backup, hnone]
  · intro c msg hsome
    constructor <;> simp [create_backup, hsome]
  · intro c hsome
    have hbp : get_backup_path p t ≠ p := backup_ne_self p t
    refine ⟨?_, ?_, ?_⟩
    · simp [create_backup, hsome]
    · simp [create_backup, hsome, FS.read_write_self]
    · simp [create_backup, hsome,
        FS.read_write_ne fs (get_backup_path p t) p c (Ne.symm hbp)]

/-- C10 witness: the amended theorem applied to a one-file filesystem
and to the empty filesystem, all hypotheses discharged by computation. -/
theorem C10_create_backup_amended_witness :
    FS.read ([] : FS (List Nat)) "a.jpg".data = none ∧
    FS.read [("b.jpg".data, [9])] "b.jpg".data = some [9] ∧
    ((create_backup ([] : FS (List Nat)) "a.jpg".data none 0 none).1 =
        Except.error (PyExc.fileError "Cannot backup non-existent file: a.jpg") ∧
      (create_backup ([] : FS (List Nat)) "a.jpg".data none 0 none).2 = []) ∧
    ((create_backup [("b.jpg".data, [9])] "b.jpg".data none 0 (some "denied")).1 =
        Except.error (PyExc.backupError "Failed to create backup: denied")) ∧
    ((create_backup [("b.jpg".data, [9])] "b.jpg".data none 0 none).1 =
        Except.ok (get_backup_path "b.jpg".data 0) ∧
      FS.read (create_backup [("b.jpg".data, [9])] "b.jpg".data none 0 none).2
        (get_backup_path "b.jpg".data 0) = some [9]) := by
  refine ⟨rfl, rfl, ?_, ?_, ?_⟩
  · have h := (C10_create_backup_amended ([] : FS (List Nat)) "a.jpg".data 0).1
      rfl none
    exact ⟨h.1, h.2⟩
  · exact ((C10_create_backup_amended [("b.jpg".data, [9])] "b.jpg".data 0).2.1
      [9] "denied" rfl).1
  · have h := (C10_create_backup_amended [("b.jpg".data, [9])] "b.jpg".data 0).2.2
      [9] rfl
    exact ⟨h.1, h.2.1⟩

/-! ## Image and adapter model (adapters/png_adapter.py, jpeg_adapter.py) -/

/-- An image file as decoded by the codec: the pixel data (abstracted
to one value whose equality models byte-identical canonical RGB
buffers) and the metadata entries embedded in the container. -/
structure Img where
  pixels : Nat
  meta : Dict
deriving DecidableEq, Repr

/-- get_pixel_hash of the base adapter: SHA-256 over the canonical RGB
bytes, modelled as an injective function of the pixel data. The code
returns the empty string only when the image cannot be opened, which
the filesystem model expresses as absence instead. -/
def pixelHash (i : Img) : String := "h" ++ Nat.repr i.pixels

/-- verify_pixel_integrity of the base adapter: both hashes equal and
the original hash non-empty. -/
def verify_pixel_integrity (orig modified : Img) : Bool :=
  decide (pixelHash orig = pixelHash modified) && !(decide (pixelHash orig = ""))

/-- Python str of a stored value, as used by add_text. -/
def pyStr : PyVal → String
  | PyVal.none => "None"
  | PyVal.str s => s
  | PyVal.int n => toString n
  | PyVal.bool b => if b then "True" else "False"

/-- PNGAdapter._clean_png_keyword: keep printable ASCII 32-126 and
truncate to 79 characters. -/
def clean_png_keyword (k : String) : String :=
  String.mk ((k.data.filter (fun c => 32 ≤ c.toNat && c.toNat ≤ 126)).take 79)

/-- Characters after the first colon, the expression
key.split(chr 58, 1)[1] of the write path. -/
def afterFirstColon (k : String) : String :=
  String.mk ((k.data.dropWhile (fun c => !(decide (c = ':')))).drop 1)

/-- The text-chunk set PNGAdapter.write_metadata rebuilds from the
custom block: strip the tEXt: or PIL: lead of each key to recover the
bare keyword, sanitise it, stringify the value; append one XMP entry
when the XMP_Raw value is truthy. -/
def build_png_info (custom : Dict) (xmpRaw : PyVal) : Dict :=
  let base := custom.map (fun kv =>
    let actual := if matchesAt kv.1.data "tEXt:".data || matchesAt kv.1.data "PIL:".data
      then afterFirstColon kv.1 else kv.1
    (clean_png_keyword actual, PyVal.str (pyStr kv.2)))
  if xmpRaw.isTruthy then base ++ [("XML:com.adobe.xmp", PyVal.str (pyStr xmpRaw))]
  else base

/-- Lowercased suffix of a path, Path.suffix.lower(). -/
def suffixLower (p : PyPath) : PyPath := (pathSuffix p).map Char.toLower

/-- supports_format of the base adapter: the lowercased suffix is a
dotted member of the supported-formats list. -/
def supports_format (fmts : List String) (p : PyPath) : Bool :=
  fmts.any (fun f => decide (suffixLower p = '.' :: f.data))

def jpeg_supported_formats : List String := ["jpg", "jpeg", "jpe", "jfif"]

def png_supported_formats : List String := ["png"]

/-- The body PNGAdapter.write_metadata runs inside the safe-write
scope: open the source image, save it to the temp path with the
rebuilt text-chunk set (the pixel outcome of the save is the
collaborator parameter savedPixels), then verify pixel integrity
against the source, raising the dedicated pixel-corruption error on
mismatch. -/
def png_write_body (fs : FS Img) (filePath : PyPath) (custom : Dict)
    (xmpRaw : PyVal) (savedPixels : Nat) :
    Option Img → Except PyExc (Option Img) :=
  fun _ =>
    match FS.read fs filePath with
    | none => Except.error (PyExc.metadataError "cannot open image")
    | some orig =>
      let newImg : Img := { pixels := savedPixels,
                            meta := build_png_info custom xmpRaw }
      if verify_pixel_integrity orig newImg then Except.ok (some newImg)
      else Except.error (PyExc.pixelDataCorruptionError
        "Pixel data corrupted during metadata write")

/-- PNGAdapter.write_metadata: resolve the output path, run the body
in the safe-write scope, and wrap any exception that escapes the scope
(the re-raised pixel-corruption error included) into MetadataError
with the original message embedded. -/
def png_write_metadata (fs : FS Img) (m : ImageMetadata)
    (outputPath : Option PyPath) (t : Nat) (savedPixels : Nat) :
    Except PyExc PyPath × FS Img :=
  let outP := outputPath.getD m.file_path
  let r := safe_file_operation fs outP t true
    (png_write_body fs m.file_path m.custom.data (m.xmp.get "XMP_Raw") savedPixels)
  match r.1 with
  | Except.ok _ => (Except.ok outP, r.2)
  | Except.error e =>
    (Except.error (PyExc.metadataError
      ("Failed to write PNG metadata: " ++ PyExc.message e)), r.2)

/-- The body PNGAdapter.strip_metadata runs inside the scope: re-save
the image with no text-chunk set at all, then verify pixel
integrity. -/
def png_strip_body (fs : FS Img) (filePath : PyPath) (savedPixels : Nat) :
    Option Img → Except PyExc (Option Img) :=
  fun _ =>
    match FS.read fs filePath with
    | none => Except.error (PyExc.metadataError "cannot open image")
    | some orig =>
      let newImg : Img := { pixels := savedPixels, meta := [] }
      if verify_pixel_integrity orig newImg then Except.ok (some newImg)
      else Except.error (PyExc.pixelDataCorruptionError
        "Pixel data corrupted during metadata stripping")

/-- PNGAdapter.strip_metadata: validate, run the strip body in the
safe-write scope, wrap any escaping exception into MetadataError. -/
def png_strip_metadata (fs : FS Img) (filePath : PyPath)
    (outputPath : Option PyPath) (t : Nat) (savedPixels : Nat) :
    Except PyExc PyPath × FS Img :=
  if (FS.read fs filePath).isNone then
    (Except.error (PyExc.fileNotFoundError
      ("File not found: " ++ String.mk filePath)), fs)
  else if !(supports_format png_supported_formats filePath) then
    (Except.error (PyExc.unsupportedFormatError
      "Format not supported by PNG"), fs)
  else
    let outP := outputPath.getD filePath
    let r := safe_file_operation fs outP t true
      (png_strip_body fs filePath savedPixels)
    match r.1 with
    | Except.ok _ => (Except.ok outP, r.2)
    | Except.error e =>
      (Except.error (PyExc.metadataError
        ("Failed to strip PNG metadata: " ++ PyExc.message e)), r.2)

/-- The body JPEGAdapter.strip_metadata runs inside the scope: re-save
the image without metadata (quality kept, pixels re-encoded), then run
verify_jpeg_integrity; that check computes a mean-squared error over
the decoded buffers of the codec, so its pass or fail outcome is the
collaborator parameter verifyOk. On fail the dedicated
pixel-corruption error is raised. -/
def jpeg_strip_body (fs : FS Img) (filePath : PyPath) (verifyOk : Bool) :
    Option Img → Except PyExc (Option Img) :=
  fun _ =>
    match FS.read fs filePath with
    | none => Except.error (PyExc.metadataError "cannot open image")
    | some orig =>
      if verifyOk then Except.ok (some { pixels := orig.pixels, meta := [] })
      else Except.error (PyExc.pixelDataCorruptionError
        "JPEG integrity check failed - image may be corrupted")

/-- JPEGAdapter.strip_metadata: validate, run the strip body in the
safe-write scope (create_backup left at its default True), wrap any
escaping exception into MetadataError. -/
def jpeg_strip_metadata (fs : FS Img) (filePath : PyPath)
    (outputPath : Option PyPath) (t : Nat) (verifyOk : Bool) :
    Except PyExc PyPath × FS Img :=
  if (FS.read fs filePath).isNone then
    (Except.error (PyExc.fileNotFoundError
      ("File not found: " ++ String.mk filePath)), fs)
  else if !(supports_format jpeg_supported_formats filePath) then
    (Except.error (PyExc.unsupportedFormatError
      "Format not supported by JPEG"), fs)
  else
    let outP := outputPath.getD filePath
    let r := safe_file_operation fs outP t true
      (jpeg_strip_body fs filePath verifyOk)
    match r.1 with
    | Except.ok _ => (Except.ok outP, r.2)
    | Except.error e =>
      (Except.error (PyExc.metadataError
        ("Failed to strip JPEG metadata: " ++ PyExc.message e)), r.2)

/-! ## Claim C2: post-write pixel verification failure -/

/-- A PNG file whose re-save will come back with different pixels. -/
def imgPng : Img := { pixels := 5, meta := [("tEXt:Title", PyVal.str "hi")] }

def fsPng : FS Img := [("photo.png".data, imgPng)]

def mPng : ImageMetadata :=
  { file_path := "photo.png".data
    format := "PNG"
    exif := { name := "exif", data := [] }
    iptc := { name := "iptc", data := [] }
    xmp := { name := "xmp", data := [] }
    custom := { name := "custom", data := [("tEXt:Title", PyVal.str "hi")] }
    file_size := none
    last_modified := none
    pixel_hash := none }

def imgJpg : Img := { pixels := 5, meta := [("GPS:GPSLatitude", PyVal.str "40.7128")] }

def fsJpg : FS Img := [("photo.jpg".data, imgJpg)]

/-- C2. When the post-write (or post-strip) pixel-integrity
verification fails, the body raises PixelDataCorruptionError inside
the safe-write scope, but the enclosing handler of the adapter catches
every exception and re-raises MetadataError with the message embedded
(png_adapter.py lines 261-263 and 302-304, jpeg_adapter.py lines
299-301), so the caller receives the generic metadata error, never the
dedicated kind. Evaluated here at failing inputs for the PNG write,
the PNG strip and the JPEG strip paths. -/
theorem C2_pixel_corruption_wrapped :
    (png_write_metadata fsPng mPng none 7 6).1 =
      Except.error (PyExc.metadataError
        "Failed to write PNG metadata: Pixel data corrupted during metadata write") ∧
    (png_strip_metadata fsPng "photo.png".data none 7 6).1 =
      Except.error (PyExc.metadataError
        "Failed to strip PNG metadata: Pixel data corrupted during metadata stripping") ∧
    (jpeg_strip_metadata fsJpg "photo.jpg".data none 7 false).1 =
      Except.error (PyExc.metadataError
        "Failed to strip JPEG metadata: JPEG integrity check failed - image may be corrupted") ∧
    (∀ msg, PyExc.isPixelCorruption (PyExc.metadataError msg) = false) := by
  refine ⟨?_, ?_, ?_, fun msg => rfl⟩ <;> rfl

/-! ## Engine (core/engine.py) -/

/-- The adapter registry built by _register_adapters: every supported
extension of each adapter, lowercased, mapped to that adapter
instance. The engine constructs one JPEG and one PNG adapter (the
other formats are a to-do in the source), so instance identity is the
format tag. -/
def engine_registry : List (PyPath × String) :=
  [("jpg".data, "JPEG"), ("jpeg".data, "JPEG"), ("jpe".data, "JPEG"),
   ("jfif".data, "JPEG"), ("png".data, "PNG")]

def registryLookup (ext : PyPath) : Option String := alistFind engine_registry ext

/-- Leading dots removed, str.lstrip of the dot. -/
def lstripDots (l : PyPath) : PyPath := l.dropWhile (fun c => decide (c = '.'))

/-- file_path.suffix.lower().lstrip(chr 46) of get_adapter. -/
def extLower (p : PyPath) : PyPath := lstripDots (suffixLower p)

/-- The standard-library MIME guess by extension, restricted to the
extensions exercised here (a finite slice of the mimetypes table; the
lookup in that library is case-insensitive on the extension, and the
extension xyz maps to a chemical type, not an image type). -/
def mime_table : List (PyPath × String) :=
  [("jpg".data, "image/jpeg"), ("jpeg".data, "image/jpeg"),
   ("jpe".data, "image/jpeg"), ("png".data, "image/png"),
   ("tiff".data, "image/tiff"), ("tif".data, "image/tiff"),
   ("gif".data, "image/gif"), ("webp".data, "image/webp"),
   ("xyz".data, "chemical/x-xyz")]

def mimeGuess (p : PyPath) : Option String := alistFind mime_table (extLower p)

/-- The fixed map of get_adapter from image MIME types to a canonical
extension. -/
def format_map : List (String × String) :=
  [("image/jpeg", "jpg"), ("image/png", "png"), ("image/tiff", "tiff"),
   ("image/webp", "webp"), ("image/gif", "gif")]

/-- MetadataEngine.get_adapter: existence first, then the direct
lowercased-extension lookup, then the MIME fallback through
format_map, else UnsupportedFormatError. -/
def get_adapter {α : Type} (fs : FS α) (p : PyPath) : Except PyExc String :=
  if (FS.read fs p).isNone then
    Except.error (PyExc.fileError ("File not found: " ++ String.mk p))
  else
    match registryLookup (extLower p) with
    | some a => Except.ok a
    | none =>
      match mimeGuess p with
      | some mt =>
        match alistFind format_map mt with
        | some mf =>
          match registryLookup mf.data with
          | some a => Except.ok a
          | none => Except.error (PyExc.unsupportedFormatError
              ("No adapter available for format: " ++ String.mk (extLower p)))
        | none => Except.error (PyExc.unsupportedFormatError
            ("No adapter available for format: " ++ String.mk (extLower p)))
      | none => Except.error (PyExc.unsupportedFormatError
          ("No adapter available for format: " ++ String.mk (extLower p)))

/-- MetadataEngine.strip_metadata: resolve the output path, dispatch
through get_adapter, take the engine-level backup only when requested
and the output overwrites the original, then delegate to the adapter
strip (which re-raises through the engine unchanged). -/
def engine_strip_metadata (fs : FS Img) (filePath : PyPath)
    (outputPath : Option PyPath) (t : Nat) (createBackup : Bool)
    (verifyOk : Bool) (savedPixels : Nat) : Except PyExc PyPath × FS Img :=
  let outP := outputPath.getD filePath
  match get_adapter fs filePath with
  | Except.error e => (Except.error e, fs)
  | Except.ok tag =>
    let fs1 := if createBackup && decide (outP = filePath) then
        (create_backup fs filePath none t none).2 else fs
    if tag = "JPEG" then
      jpeg_strip_metadata fs1 filePath (some outP) t verifyOk
    else
      png_strip_metadata fs1 filePath (some outP) t savedPixels

/-! ## Claim C6: format dispatch -/

theorem isSome_isNone_false {α : Type} {o : Option α} (h : o.isSome = true) :
    o.isNone = false := by
  cases o with
  | none => simp at h
  | some a => rfl

/-- C6. Dispatch of get_adapter: (a) two existing paths with the same
lowercased extension resolve to the same adapter instance; (b) an
existing path whose extension is unregistered and whose MIME guess is
not an image type of the fixed map fails with UnsupportedFormatError;
(c) a non-existent path fails with FileError before any extension
logic. -/
theorem C6_get_adapter_dispatch :
    (∀ {α : Type} (fs : FS α) (p q : PyPath),
      (FS.read fs p).isSome = true → (FS.read fs q).isSome = true →
      extLower p = extLower q → get_adapter fs p = get_adapter fs q) ∧
    (∀ {α : Type} (fs : FS α) (p : PyPath),
      (FS.read fs p).isSome = true →
      registryLookup (extLower p) = none →
      (∀ mt, mimeGuess p = some mt → alistFind format_map mt = none) →
      get_adapter fs p = Except.error (PyExc.unsupportedFormatError
        ("No adapter available for format: " ++ String.mk (extLower p)))) ∧
    (∀ {α : Type} (fs : FS α) (p : PyPath),
      FS.read fs p = none →
      get_adapter fs p = Except.error (PyExc.fileError
        ("File not found: " ++ String.mk p))) := by
  refine ⟨?_, ?_, ?_⟩
  · intro α fs p q hp hq hext
    simp only [get_adapter, mimeGuess, isSome_isNone_false hp, isSome_isNone_false hq]
    rw [if_neg (by decide), if_neg (by decide)]
    rw [hext]
  · intro α fs p hp hreg hmime
    simp only [get_adapter, mimeGuess, isSome_isNone_false hp]
    rw [if_neg (by decide), hreg]
    cases hm : alistFind mime_table (extLower p) with
    | none => simp
    | some mt =>
      have hf : alistFind format_map mt = none := hmime mt hm
      simp [hf]
  · intro α fs p hp
    simp [get_adapter, hp]

def fsC6 : FS Unit :=
  [("photo.JPG".data, ()), ("photo.jpg".data, ()), ("photo.xyz".data, ())]

/-- C6 witness: the dispatch theorem applied to a filesystem holding
photo.JPG, photo.jpg and photo.xyz, and to the absent missing.jpg. -/
theorem C6_get_adapter_dispatch_witness :
    ((FS.read fsC6 "photo.JPG".data).isSome = true ∧
     (FS.read fsC6 "photo.jpg".data).isSome = true ∧
     extLower "photo.JPG".data = extLower "photo.jpg".data ∧
     registryLookup (extLower "photo.xyz".data) = none ∧
     FS.read fsC6 "missing.jpg".data = none) ∧
    get_adapter fsC6 "photo.JPG".data = get_adapter fsC6 "photo.jpg".data ∧
    get_adapter fsC6 "photo.xyz".data =
      Except.error (PyExc.unsupportedFormatError
        ("No adapter available for format: " ++ String.mk (extLower "photo.xyz".data))) ∧
    get_adapter fsC6 "missing.jpg".data =
      Except.error (PyExc.fileError
        ("File not found: " ++ String.mk "missing.jpg".data)) :=
  ⟨⟨by decide, by decide, by decide, by decide, by decide⟩,
   C6_get_adapter_dispatch.1 fsC6 "photo.JPG".data "photo.jpg".data
     (by decide) (by decide) (by decide),
   C6_get_adapter_dispatch.2.1 fsC6 "photo.xyz".data (by decide) (by decide)
     (by
       intro mt hm
       have h2 : mt = "chemical/x-xyz" :=
         (Option.some.inj (show some "chemical/x-xyz" = some mt from hm)).symm
       rw [h2]
       rfl),
   C6_get_adapter_dispatch.2.2 fsC6 "missing.jpg".data (by decide)⟩

/-! ## Claim C3: engine strip with create_backup=False -/

theorem scope_temp_input_some {α : Type} (fs : FS α) (p : PyPath) (t : Nat) (c : α)
    (h : FS.read fs p = some c) : scope_temp_input fs p t true = some c := by
  have hbp : get_backup_path p t ≠ p := backup_ne_self p t
  have hfs1 : (create_backup fs p none t none).2 =
      FS.write fs (get_backup_path p t) c := by
    simp [create_backup, h]
  have hr1 : FS.read (FS.write fs (get_backup_path p t) c) p = some c := by
    rw [FS.read_write_ne _ _ _ _ (fun hq => hbp hq.symm), h]
  simp [scope_temp_input, h, hfs1, hr1, FS.read_write_self]

/-- The success path of safe_file_operation: when the body completes
with a new temp content, the temp file is moved over the target, the
temp file is gone, and the backup taken on entry still holds the
original content. -/
theorem safe_scope_commit {α : Type} (fs : FS α) (p : PyPath) (t : Nat)
    (body : Option α → Except PyExc (Option α)) (newC : α)
    (h : body (scope_temp_input fs p t true) = Except.ok (some newC)) :
    (safe_file_operation fs p t true body).1 = Except.ok () ∧
    FS.read (safe_file_operation fs p t true body).2 p = some newC ∧
    FS.read (safe_file_operation fs p t true body).2 (temp_op_path p t) = none ∧
    (∀ c0, FS.read fs p = some c0 →
      FS.read (safe_file_operation fs p t true body).2 (get_backup_path p t) =
        some c0) := by
  have hbp : get_backup_path p t ≠ p := backup_ne_self p t
  have htp : temp_op_path p t ≠ p := temp_ne_self p t
  have htb : temp_op_path p t ≠ get_backup_path p t := temp_ne_backup p t
  cases horig : FS.read fs p with
  | none =>
    have hinput : scope_temp_input fs p t true = FS.read fs (temp_op_path p t) := by
      simp [scope_temp_input, horig]
    rw [hinput] at h
    have hw : FS.read (FS.write fs (temp_op_path p t) newC) (temp_op_path p t) =
        some newC := FS.read_write_self _ _ _
    refine ⟨?_, ?_, ?_, ?_⟩
    · simp [safe_file_operation, horig, h]
    · simp [safe_file_operation, horig, h, hw,
        FS.read_remove_ne _ (temp_op_path p t) p (Ne.symm htp),
        FS.read_write_self]
    · simp [safe_file_operation, horig, h, hw, FS.read_remove_self]
    · intro c0 hc0
      exact Option.noConfusion hc0
  | some c0 =>
    have hfs1 : (create_backup fs p none t none).2 =
        FS.write fs (get_backup_path p t) c0 := by
      simp [create_backup, horig]
    have hr1 : FS.read (FS.write fs (get_backup_path p t) c0) p = some c0 := by
      rw [FS.read_write_ne _ _ _ _ (fun hq => hbp hq.symm), horig]
    have hinput : scope_temp_input fs p t true = some c0 :=
      scope_temp_input_some fs p t c0 horig
    rw [hinput] at h
    have hr2t : FS.read (FS.write (FS.write fs (get_backup_path p t) c0)
        (temp_op_path p t) c0) (temp_op_path p t) = some c0 :=
      FS.read_write_self _ _ _
    have hw : FS.read (FS.write (FS.write (FS.write fs (get_backup_path p t) c0)
        (temp_op_path p t) c0) (temp_op_path p t) newC) (temp_op_path p t) =
        some newC := FS.read_write_self _ _ _
    have hfinal : FS.read (FS.removeFile (FS.write (FS.write (FS.write (FS.write fs
        (get_backup_path p t) c0) (temp_op_path p t) c0) (temp_op_path p t) newC)
        p newC) (temp_op_path p t)) p = some newC := by
      rw [FS.read_remove_ne _ _ _ (Ne.symm htp)]
      exact FS.read_write_self _ _ _
    have hbk : FS.read (FS.removeFile (FS.write (FS.write (FS.write (FS.write fs
        (get_backup_path p t) c0) (temp_op_path p t) c0) (temp_op_path p t) newC)
        p newC) (temp_op_path p t)) (get_backup_path p t) = some c0 := by
      rw [FS.read_remove_ne _ _ _ (Ne.symm htb),
          FS.read_write_ne _ _ _ _ hbp,
          FS.read_write_ne _ _ _ _ (Ne.symm htb),
          FS.read_write_ne _ _ _ _ (Ne.symm htb)]
      exact FS.read_write_self _ _ _
    refine ⟨?_, ?_, ?_, ?_⟩
    · simp [safe_file_operation, horig, hfs1, hr1, hr2t, h, hw]
    · simp [safe_file_operation, horig, hfs1, hr1, hr2t, h, hw, hfinal,
        FS.read_remove_ne _ (temp_op_path p t) p (Ne.symm htp)]
    · simp [safe_file_operation, horig, hfs1, hr1, hr2t, h, hw, FS.read_remove_self]
    · intro c1 hc1
      have hce : c0 = c1 := Option.some.inj hc1
      rw [← hce]
      simp [safe_file_operation, horig, hfs1, hr1, hr2t, h, hw, hbk,
        FS.read_remove_ne _ (temp_op_path p t) (get_backup_path p t) (Ne.symm htb)]

/-- The unified metadata the JPEG read path produces for a container:
EXIF entries feed the exif block; the IPTC marker scan and the XMP
packet scan find nothing when the container embeds no metadata, as
after a strip, so those blocks and the custom block stay empty. -/
def read_as_image_metadata (p : PyPath) (img : Img) : ImageMetadata :=
  { file_path := p
    format := "JPEG"
    exif := { name := "exif", data := img.meta }
    iptc := { name := "iptc", data := [] }
    xmp := { name := "xmp", data := [] }
    custom := { name := "custom", data := [] }
    file_size := none
    last_modified := none
    pixel_hash := some (pixelHash img) }

/-- C3 counterexample: a successful overwrite-in-place strip through
the engine with create_backup=False still leaves a backup of the
original next to it, created by the safe-write scope of the adapter
(file_safety.py line 156, reached with its default create_backup=True
from jpeg_adapter.py line 286). -/
theorem C3_strip_backup_counterexample :
    (engine_strip_metadata fsJpg "photo.jpg".data none 7 false true 0).1 =
      Except.ok "photo.jpg".data ∧
    FS.read (engine_strip_metadata fsJpg "photo.jpg".data none 7 false true 0).2
      (get_backup_path "photo.jpg".data 7) = some imgJpg := by
  constructor
  · rfl
  · rfl

/-- C3 amended: for a successful overwrite-in-place strip with
create_backup=False on a JPEG file, the engine itself takes no backup,
but the safe-write scope of the adapter does create one (a timestamped
sibling holding the original content); the stripped file holds the
image with no container metadata, and re-reading it yields
has_metadata() = false and has_gps_data() = false. -/
theorem C3_strip_no_backup_amended (fs : FS Img) (p : PyPath) (t : Nat) (img : Img)
    (h1 : FS.read fs p = some img)
    (h2 : registryLookup (extLower p) = some "JPEG")
    (h3 : supports_format jpeg_supported_formats p = true) :
    (engine_strip_metadata fs p none t false true 0).1 = Except.ok p ∧
    FS.read (engine_strip_metadata fs p none t false true 0).2
      (get_backup_path p t) = some img ∧
    FS.read (engine_strip_metadata fs p none t false true 0).2 p =
      some { pixels := img.pixels, meta := [] } ∧
    (read_as_image_metadata p { pixels := img.pixels, meta := [] }).has_metadata
      = false ∧
    (read_as_image_metadata p { pixels := img.pixels, meta := [] }).has_gps_data
      = false := by
  have hnone : (FS.read fs p).isNone = false := by rw [h1]; rfl
  have hga : get_adapter fs p = Except.ok "JPEG" := by
    simp [get_adapter, hnone, h2]
  have hbody : jpeg_strip_body fs p true (scope_temp_input fs p t true) =
      Except.ok (some { pixels := img.pixels, meta := [] }) := by
    rw [scope_temp_input_some fs p t img h1]
    simp [jpeg_strip_body, h1]
  have hc := safe_scope_commit fs p t (jpeg_strip_body fs p true)
    { pixels := img.pixels, meta := [] } hbody
  have heq : engine_strip_metadata fs p none t false true 0 =
      (Except.ok p,
       (safe_file_operation fs p t true (jpeg_strip_body fs p true)).2) := by
    simp [engine_strip_metadata, hga, jpeg_strip_metadata, hnone, h3, hc.1]
  refine ⟨?_, ?_, ?_, rfl, rfl⟩
  · rw [heq]
  · rw [heq]
    exact hc.2.2.2 img h1
  · rw [heq]
    exact hc.2.1

/-- C3 witness: the amended theorem applied to the concrete JPEG
filesystem fsJpg at timestamp 7. -/
theorem C3_strip_no_backup_amended_witness :
    (FS.read fsJpg "photo.jpg".data = some imgJpg ∧
     registryLookup (extLower "photo.jpg".data) = some "JPEG" ∧
     supports_format jpeg_supported_formats "photo.jpg".data = true) ∧
    ((engine_strip_metadata fsJpg "photo.jpg".data none 7 false true 0).1 =
        Except.ok "photo.jpg".data ∧
     FS.read (engine_strip_metadata fsJpg "photo.jpg".data none 7 false true 0).2
        (get_backup_path "photo.jpg".data 7) = some imgJpg ∧
     FS.read (engine_strip_metadata fsJpg "photo.jpg".data none 7 false true 0).2
        "photo.jpg".data = some { pixels := imgJpg.pixels, meta := [] } ∧
     (read_as_image_metadata "photo.jpg".data
        { pixels := imgJpg.pixels, meta := [] }).has_metadata = false ∧
     (read_as_image_metadata "photo.jpg".data
        { pixels := imgJpg.pixels, meta := [] }).has_gps_data = false) :=
  ⟨⟨rfl, by decide, by decide⟩,
   C3_strip_no_backup_amended fsJpg "photo.jpg".data 7 imgJpg rfl
     (by decide) (by decide)⟩

/-! ## Claim C5: the raw PNG chunk pass (png_adapter.py lines 77-127)

The byte-string literals of this file are written with doubled
backslashes in the source, so each denotes the literal characters
backslash, x, digits rather than the escaped bytes. The two constants
below spell out, byte by byte, exactly what the source literals
contain. -/

/-- The seventeen bytes of the literal compared against the signature
at png_adapter.py line 83 (characters backslash x 8 9 P N G backslash
r backslash n backslash x 1 a backslash n). -/
def doubledPngSignature : List Nat :=
  [92, 120, 56, 57, 80, 78, 71, 92, 114, 92, 110, 92, 120, 49, 97, 92, 110]

/-- The four bytes of the separator searched for at lines 116, 133,
144 and 180 (characters backslash x 0 0). -/
def doubledNulSeq : List Nat := [92, 120, 48, 48]

/-- The true eight-byte PNG signature. -/
def realPngSignature : List Nat := [137, 80, 78, 71, 13, 10, 26, 10]

/-- Big-endian 32-bit length field, struct.unpack of >I. -/
def beUint32 : List Nat → Nat
  | [b0, b1, b2, b3] => ((b0 * 256 + b1) * 256 + b2) * 256 + b3
  | _ => 0

/-- Latin-1 decoding of bytes (every byte value maps to the code point
of the same number). -/
def latin1 (bs : List Nat) : String := String.mk (bs.map (fun b => Char.ofNat b))

/-- Index of the first occurrence of the pattern, bytes.find of
Python (none for not found). -/
def findSubIdx : List Nat → List Nat → Option Nat
  | [], pat => if matchesAt ([] : List Nat) pat then some 0 else none
  | c :: cs, pat =>
    if matchesAt (c :: cs) pat then some 0
    else match findSubIdx cs pat with
      | some i => some (i + 1)
      | none => none

/-- PNGAdapter._process_text_chunk: find the separator (the doubled
literal), split into keyword and Latin-1 text, store under
tEXt:keyword in the custom block; a record without the separator is
skipped. -/
def png_process_text_chunk (data : List Nat) (custom : Dict) : Dict :=
  match findSubIdx data doubledNulSeq with
  | none => custom
  | some nullPos =>
    alistInsert custom ("tEXt:" ++ latin1 (data.take nullPos))
      (PyVal.str (latin1 (data.drop (nullPos + 1))))

/-- The chunk iteration of _read_png_chunks: read an 8-byte header
(stop short of one), take the length and type fields, slice the data
and skip the 4-byte crc, process tEXt records, stop at IEND, and skip
every other record type (the iTXt and zTXt processors of the source
split on the same doubled literal and never fire on the inputs
considered here). The fuel argument bounds the recursion by the byte
count. -/
def png_read_chunks_loop : Nat → List Nat → Dict → Dict
  | 0, _, custom => custom
  | fuel + 1, data, custom =>
    if (data.take 8).length < 8 then custom
    else
      let len := beUint32 ((data.take 8).take 4)
      let ctype := (data.take 8).drop 4
      let chunkData := (data.drop 8).take len
      let rest := ((data.drop 8).drop len).drop 4
      if ctype = "tEXt".data.map Char.toNat then
        png_read_chunks_loop fuel rest (png_process_text_chunk chunkData custom)
      else if ctype = "IEND".data.map Char.toNat then custom
      else png_read_chunks_loop fuel rest custom

/-- PNGAdapter._read_png_chunks: compare the first eight bytes of the
file against the doubled-backslash literal; on mismatch the raised
MetadataError is swallowed by the enclosing handler (line 109) and the
custom block is left untouched; on a match the chunk loop runs. -/
def png_read_chunks (file : List Nat) (custom : Dict) : Dict :=
  if file.take 8 = doubledPngSignature then
    png_read_chunks_loop file.length (file.drop 8) custom
  else custom

/-- A minimal well-formed PNG byte stream: the true signature, one
tEXt record with keyword Title and text Hi, and the IEND record. -/
def tEXtChunkTitle : List Nat :=
  [0, 0, 0, 8] ++ ("tEXt".data.map Char.toNat) ++
  [84, 105, 116, 108, 101, 0, 72, 105] ++ [0, 0, 0, 0]

def iendChunk : List Nat :=
  [0, 0, 0, 0] ++ ("IEND".data.map Char.toNat) ++ [0, 0, 0, 0]

def goodPngFile : List Nat := realPngSignature ++ tEXtChunkTitle ++ iendChunk

/-- C5. The raw chunk pass rejects every file that starts with the
true PNG signature: the comparison literal is written with doubled
backslashes and denotes seventeen characters, never equal to the eight
read bytes, so the pass stores nothing (first two conjuncts). Even
fed past the signature, the tEXt processor searches for the four-byte
doubled literal instead of the NUL byte and skips the record (third
conjunct). The claim that the signature is accepted and the tEXt
record stored under tEXt:Title is false on this input. -/
theorem C5_png_chunk_pass_dead :
    goodPngFile.take 8 = realPngSignature ∧
    png_read_chunks goodPngFile [] = [] ∧
    png_read_chunks_loop goodPngFile.length (goodPngFile.drop 8) [] = [] ∧
    doubledPngSignature.length = 17 := by
  refine ⟨rfl, rfl, rfl, rfl⟩

/-! ## Claim C7: adapter construction raises TypeError -/

/-- The documented CPython semantics of the root-object constructor:
called with surplus arguments it raises TypeError when the class of
the instance overrides the constructor; with neither constructor nor
allocator overridden it raises TypeError (takes no arguments);
otherwise the surplus is tolerated. -/
def object_init (excessArgs tpInitOverridden tpNewOverridden : Bool) :
    Except PyExc Unit :=
  if excessArgs then
    if tpInitOverridden then
      Except.error (PyExc.typeError
        "object.__init__() takes exactly one argument (the instance to initialize)")
    else if tpNewOverridden then Except.ok ()
    else Except.error (PyExc.typeError "takes no arguments")
  else Except.ok ()

/-- BaseMetadataAdapter (core/base_adapter.py lines 13-44) defines no
constructor of its own. -/
def base_metadata_adapter_defines_init : Bool := false

/-- The abstract-class helper BaseMetadataAdapter extends defines no
constructor either. -/
def abc_defines_init : Bool := false

/-- The call of the base constructor with the safety manager argument
in every adapter constructor: resolution skips BaseMetadataAdapter and
the abstract-class helper (neither defines a constructor) and reaches
the root object constructor with one surplus positional argument,
while the adapter class itself overrides the constructor. -/
def adapter_super_init : Except PyExc Unit :=
  if base_metadata_adapter_defines_init then Except.ok ()
  else if abc_defines_init then Except.ok ()
  else object_init true true false

/-- JPEGAdapter construction (jpeg_adapter.py line 30). -/
def jpeg_adapter_construct : Except PyExc Unit := adapter_super_init

/-- PNGAdapter construction (png_adapter.py line 30). -/
def png_adapter_construct : Except PyExc Unit := adapter_super_init

/-- TIFFAdapter construction (tiff_adapter.py line 28). -/
def tiff_adapter_construct : Except PyExc Unit := adapter_super_init

/-- GIFAdapter construction (gif_adapter.py line 27). -/
def gif_adapter_construct : Except PyExc Unit := adapter_super_init

/-- WebPAdapter construction (webp_adapter.py line 27). -/
def webp_adapter_construct : Except PyExc Unit := adapter_super_init

/-- MetadataEngine construction: _register_adapters constructs the
JPEG adapter first, then the PNG adapter (engine.py lines 36-40); the
first raised TypeError propagates. -/
def metadata_engine_construct : Except PyExc Unit :=
  jpeg_adapter_construct >>= fun _ => png_adapter_construct >>= fun _ => Except.ok ()

/-- C7. Constructing any of the five adapters raises TypeError (the
base chain defines no constructor, so the surplus safety-manager
argument reaches the root object constructor while the adapter
overrides its own), and MetadataEngine construction raises the same
TypeError during adapter registration. -/
theorem C7_adapter_construct_type_error :
    jpeg_adapter_construct = Except.error (PyExc.typeError
      "object.__init__() takes exactly one argument (the instance to initialize)") ∧
    png_adapter_construct = Except.error (PyExc.typeError
      "object.__init__() takes exactly one argument (the instance to initialize)") ∧
    tiff_adapter_construct = Except.error (PyExc.typeError
      "object.__init__() takes exactly one argument (the instance to initialize)") ∧
    gif_adapter_construct = Except.error (PyExc.typeError
      "object.__init__() takes exactly one argument (the instance to initialize)") ∧
    webp_adapter_construct = Except.error (PyExc.typeError
      "object.__init__() takes exactly one argument (the instance to initialize)") ∧
    metadata_engine_construct = Except.error (PyExc.typeError
      "object.__init__() takes exactly one argument (the instance to initialize)") := by
  refine ⟨rfl, rfl, rfl, rfl, rfl, rfl⟩
